import Mathlib

/-!
Verification of the account-lifecycle manager (`AccountManager.cpp`) and the
transaction processor (`TransactionProcessor.cpp`) of this repository.

Shallow embedding conventions:
* C++ `double` amounts, balances and volumes are modelled as `ℚ` (all the
  thresholds are exact decimal constants, so every comparison the code makes
  agrees with the rational one on the inputs of interest).
* Account numbers `"ACC" ++ n` are modelled by their numeric suffix `n : ℕ`
  (the prefix map `n ↦ "ACC" ++ toString n` is injective, so nothing is lost).
* The `std::map<std::string, Account>` store is an association list with
  first-match lookup and first-match in-place update; `createAccount` only ever
  inserts a fresh key, so first-match semantics coincide with map semantics.
* The process-wide globals `g_complianceAuditMode` and `g_systemLocked` are
  passed to each call as an explicit argument (the value the global has at call
  time).
* External collaborator calls (notification, audit, external data) are
  observability-only side effects in the source and are not modelled; the one
  collaborator that affects control flow, the compliance service of
  `processTransaction`, is modelled as an optional compliance level supplied
  per call (`none` = no service attached).
-/

/-! ## Data model (AccountManager.hpp) -/

inductive AccountStatus where
  | ACTIVE
  | SUSPENDED
  | FROZEN
  | CLOSED
  | PENDING_VERIFICATION
deriving DecidableEq, Repr

inductive AccountType where
  | CHECKING
  | SAVINGS
  | INVESTMENT
  | BUSINESS
deriving DecidableEq, Repr

structure Account where
  accountNumber : ℕ
  type : AccountType
  status : AccountStatus
  balance : ℚ
  creditLimit : ℚ
  riskScore : ℤ
  isVerified : Bool
  hasFraudAlert : Bool
deriving DecidableEq, Repr

/-- The mutable state of one `AccountManager` instance: the account store, the
suspended-account counter, the managed-balance total, and the (static in C++,
but per-run here) account-number counter, initialised to 500000. -/
structure AMStore where
  accounts : List (ℕ × Account)
  suspendedAccountCount : ℤ
  totalManagedBalance : ℚ
  accountCounter : ℕ
deriving DecidableEq, Repr

def AMStore.initial : AMStore :=
  { accounts := [], suspendedAccountCount := 0, totalManagedBalance := 0,
    accountCounter := 500000 }

/-- `accounts.find(accountNumber)`: first-match association-list lookup. -/
def lookupAcct : List (ℕ × Account) → ℕ → Option Account
  | [], _ => none
  | (k, v) :: rest, id => if k = id then some v else lookupAcct rest id

/-- In-place update of the first entry with the given key (the C++ code mutates
the `Account&` obtained from `find`). -/
def updateAcct : List (ℕ × Account) → ℕ → Account → List (ℕ × Account)
  | [], _, _ => []
  | (k, v) :: rest, id, a => if k = id then (k, a) :: rest else (k, v) :: updateAcct rest id a

/-- Constants from `AccountManager.cpp` (`MINIMUM_BALANCE` is the C++ `0.01`,
written as `mkRat 1 100` so that the kernel can evaluate comparisons; the two
are proved equal in `MINIMUM_BALANCE_eq` below). -/
def MINIMUM_BALANCE : ℚ := mkRat 1 100

def HIGH_RISK_THRESHOLD : ℤ := 75

def MAX_ACCOUNTS_PER_USER : ℕ := 10

/-! ## AccountManager operations (AccountManager.cpp) -/

/-- `AccountManager::createAccount`.  Returns the updated store and the new
account number (`none` models the empty-string failure return). -/
def createAccount (s : AMStore) (type : AccountType) (initialBalance : ℚ) :
    AMStore × Option ℕ :=
  if initialBalance < MINIMUM_BALANCE then (s, none)
  else if MAX_ACCOUNTS_PER_USER ≤ s.accounts.length then (s, none)
  else
    let n := s.accountCounter + 1
    let newAccount : Account :=
      { accountNumber := n, type := type,
        status := AccountStatus.PENDING_VERIFICATION,
        balance := initialBalance, creditLimit := 0, riskScore := 0,
        isVerified := false, hasFraudAlert := false }
    ({ s with accounts := s.accounts ++ [(n, newAccount)],
              totalManagedBalance := s.totalManagedBalance + initialBalance,
              accountCounter := n }, some n)

/-- `AccountManager::activateAccount`. -/
def activateAccount (s : AMStore) (accountNumber : ℕ) : AMStore × Bool :=
  match lookupAcct s.accounts accountNumber with
  | none => (s, false)
  | some account =>
    if account.status = AccountStatus.PENDING_VERIFICATION ∧ ¬account.isVerified then
      (s, false)
    else if account.status = AccountStatus.CLOSED ∨ account.status = AccountStatus.FROZEN then
      (s, false)
    else
      ({ s with accounts := updateAcct s.accounts accountNumber
                  { account with status := AccountStatus.ACTIVE } }, true)

/-- `AccountManager::suspendAccount` (the `reason` argument is accepted but not
persisted, exactly as in the source). -/
def suspendAccount (s : AMStore) (accountNumber : ℕ) (_reason : String) : AMStore × Bool :=
  match lookupAcct s.accounts accountNumber with
  | none => (s, false)
  | some account =>
    if account.status = AccountStatus.CLOSED then (s, false)
    else
      ({ s with accounts := updateAcct s.accounts accountNumber
                  { account with status := AccountStatus.SUSPENDED },
                suspendedAccountCount := s.suspendedAccountCount + 1 }, true)

/-- `AccountManager::deactivateAccount`. -/
def deactivateAccount (s : AMStore) (accountNumber : ℕ) : AMStore × Bool :=
  match lookupAcct s.accounts accountNumber with
  | none => (s, false)
  | some account =>
    if account.status = AccountStatus.CLOSED then (s, false)
    else if 0 < account.balance then (s, false)
    else
      ({ s with accounts := updateAcct s.accounts accountNumber
                  { account with status := AccountStatus.CLOSED } }, true)

/-- The transaction-frequency band of `evaluateAccountRisk` (MCDC condition 1). -/
def freqBand (transactionCount : ℤ) : ℤ :=
  if 100 < transactionCount then 30
  else if 50 < transactionCount then 15
  else if 20 < transactionCount then 5
  else 0

/-- The volume band of `evaluateAccountRisk` (MCDC condition 2). -/
def volBand (volumeLastDay : ℚ) : ℤ :=
  if 1000000 < volumeLastDay then 40
  else if 500000 < volumeLastDay then 20
  else if 100000 < volumeLastDay then 10
  else 0

/-- The verification/fraud band of `evaluateAccountRisk` (MCDC condition 3). -/
def flagBand (isVerified hasFraudAlert : Bool) : ℤ :=
  if ¬isVerified ∧ hasFraudAlert then 35
  else if ¬isVerified then 20
  else if hasFraudAlert then 25
  else 0

/-- `AccountManager::evaluateAccountRisk`.  `auditMode` is the value of the
global `g_complianceAuditMode` at call time.  Returns the updated store and the
returned status (`CLOSED` doubles as the unknown-id sentinel, as in the
source). -/
def evaluateAccountRisk (s : AMStore) (accountNumber : ℕ) (transactionCount : ℤ)
    (volumeLastDay : ℚ) (auditMode : Bool) : AMStore × AccountStatus :=
  match lookupAcct s.accounts accountNumber with
  | none => (s, AccountStatus.CLOSED)
  | some account =>
    let riskScore : ℤ :=
      freqBand transactionCount + volBand volumeLastDay +
        flagBand account.isVerified account.hasFraudAlert
    if HIGH_RISK_THRESHOLD ≤ riskScore ∧ auditMode then
      ({ s with accounts := updateAcct s.accounts accountNumber
                  { account with status := AccountStatus.FROZEN } },
       AccountStatus.FROZEN)
    else if HIGH_RISK_THRESHOLD ≤ riskScore then
      ({ s with accounts := updateAcct s.accounts accountNumber
                  { account with status := AccountStatus.SUSPENDED },
                suspendedAccountCount := s.suspendedAccountCount + 1 },
       AccountStatus.SUSPENDED)
    else if 50 < riskScore then (s, AccountStatus.PENDING_VERIFICATION)
    else (s, AccountStatus.ACTIVE)

/-- The guard chain of `AccountManager::updateAccountStatus` (MCDC condition 5):
`true` means the update is refused. -/
def updateStatusRefused (account : Account) (newStatus : AccountStatus) : Bool :=
  if account.status = AccountStatus.CLOSED ∧ newStatus ≠ AccountStatus.CLOSED then true
  else if account.status = AccountStatus.FROZEN ∧ newStatus = AccountStatus.ACTIVE then
    ¬account.isVerified ∨ account.hasFraudAlert
  else if newStatus = AccountStatus.SUSPENDED ∧ account.riskScore < HIGH_RISK_THRESHOLD then
    account.status = AccountStatus.ACTIVE
  else false

/-- `AccountManager::updateAccountStatus`. -/
def updateAccountStatus (s : AMStore) (accountNumber : ℕ) (newStatus : AccountStatus) :
    AMStore × Bool :=
  match lookupAcct s.accounts accountNumber with
  | none => (s, false)
  | some account =>
    if updateStatusRefused account newStatus then (s, false)
    else
      let delta : ℤ :=
        if account.status = AccountStatus.SUSPENDED ∧ newStatus = AccountStatus.ACTIVE then -1
        else if account.status ≠ AccountStatus.SUSPENDED ∧ newStatus = AccountStatus.SUSPENDED then 1
        else 0
      ({ s with accounts := updateAcct s.accounts accountNumber
                  { account with status := newStatus },
                suspendedAccountCount := s.suspendedAccountCount + delta }, true)

/-- `AccountManager::verifyAccount`.  `isVerified` is written unconditionally;
the status moves to ACTIVE (and the call succeeds) only from
PENDING_VERIFICATION with a positive result. -/
def verifyAccount (s : AMStore) (accountNumber : ℕ) (verificationResult : Bool) :
    AMStore × Bool :=
  match lookupAcct s.accounts accountNumber with
  | none => (s, false)
  | some account =>
    if verificationResult ∧ account.status = AccountStatus.PENDING_VERIFICATION then
      ({ s with accounts := updateAcct s.accounts accountNumber
                  { account with isVerified := verificationResult,
                                 status := AccountStatus.ACTIVE } }, true)
    else
      ({ s with accounts := updateAcct s.accounts accountNumber
                  { account with isVerified := verificationResult } }, false)

/-- `AccountManager::getSuspendedAccountCount`. -/
def getSuspendedAccountCount (s : AMStore) : ℤ :=
  s.suspendedAccountCount

/-! ## Data model (TransactionProcessor.hpp, ExternalServices.hpp) -/

inductive TransactionStatus where
  | PENDING
  | APPROVED
  | REJECTED
  | CANCELLED
  | COMPLETED
deriving DecidableEq, Repr

inductive TransactionType where
  | DEPOSIT
  | WITHDRAWAL
  | TRANSFER
  | REFUND
deriving DecidableEq, Repr

inductive ComplianceLevel where
  | LOW_RISK
  | MEDIUM_RISK
  | HIGH_RISK
  | BLOCKED
deriving DecidableEq, Repr

/-- A journal entry (`struct Transaction`; the wall-clock `timestamp` field is
not modelled — no rule reads it). -/
structure Transaction where
  id : ℕ
  type : TransactionType
  amount : ℚ
  sourceAccount : String
  destAccount : String
  status : TransactionStatus
deriving DecidableEq, Repr

/-- The mutable state of one `TransactionProcessor` instance, together with the
(static in C++, per-run here) transaction id counter, initialised to 1000. -/
structure TPState where
  transactionHistory : List Transaction
  dailyVolume : ℚ
  dailyTransactionCount : ℕ
  transactionCounter : ℕ
deriving DecidableEq, Repr

def TPState.initial : TPState :=
  { transactionHistory := [], dailyVolume := 0, dailyTransactionCount := 0,
    transactionCounter := 1000 }

/-- Constants from `TransactionProcessor.cpp` (`MIN_TRANSACTION_AMOUNT` is the
C++ `0.01`, written as `mkRat 1 100` so that the kernel can evaluate
comparisons; the two are proved equal in `MIN_TRANSACTION_AMOUNT_eq` below). -/
def MIN_TRANSACTION_AMOUNT : ℚ := mkRat 1 100

def MAX_TRANSACTION_AMOUNT : ℚ := 1000000

def MAX_DAILY_TRANSACTIONS : ℕ := 1000

/-! ## TransactionProcessor operations (TransactionProcessor.cpp) -/

/-- `TransactionProcessor::validateTransaction`. -/
def validateTransaction (amount : ℚ) (type : TransactionType) : Bool :=
  if amount < MIN_TRANSACTION_AMOUNT then false
  else if MAX_TRANSACTION_AMOUNT < amount then false
  else if type = TransactionType.WITHDRAWAL ∧ 50000 < amount then false
  else if type = TransactionType.REFUND ∧ 10000 < amount then false
  else true

/-- `TransactionProcessor::executeTransfer`.  The function reads, but never
writes, the engine state; `systemLocked` is the value of the global
`g_systemLocked` at call time, and `dailyTransactionCount` / `dailyVolume` are
the engine's counters at call time. -/
def executeTransfer (amount : ℚ) (source destination : String) (isUrgent : Bool)
    (systemLocked : Bool) (dailyTransactionCount : ℕ) (dailyVolume : ℚ) :
    TransactionStatus :=
  if source = "" ∨ destination = "" then TransactionStatus.REJECTED
  else if source = destination then
    if 0 < amount then TransactionStatus.REJECTED else TransactionStatus.CANCELLED
  else if isUrgent ∧ 100000 < amount ∧ MAX_DAILY_TRANSACTIONS ≤ dailyTransactionCount then
    TransactionStatus.REJECTED
  else if isUrgent ∧ 100000 < amount ∧ 5000000 < dailyVolume + amount then
    TransactionStatus.REJECTED
  else if systemLocked ∧ ¬isUrgent then TransactionStatus.PENDING
  else if systemLocked ∧ isUrgent then TransactionStatus.APPROVED
  else if 0 < amount ∧ dailyTransactionCount < MAX_DAILY_TRANSACTIONS ∧
      dailyVolume + amount ≤ 5000000 then
    TransactionStatus.COMPLETED
  else if 0 < amount ∧ dailyTransactionCount < MAX_DAILY_TRANSACTIONS then
    TransactionStatus.APPROVED
  else if 0 < amount then TransactionStatus.PENDING
  else TransactionStatus.CANCELLED

/-- The per-type dispatch of `processTransaction` (the body of step 3): computes
the status and the amount added to `dailyVolume`. -/
def dispatchTransaction (type : TransactionType) (amount : ℚ) (source dest : String)
    (systemLocked : Bool) (dailyTransactionCount : ℕ) (dailyVolume : ℚ) :
    TransactionStatus × ℚ :=
  match type with
  | TransactionType.TRANSFER =>
    (executeTransfer amount source dest false systemLocked dailyTransactionCount dailyVolume, 0)
  | TransactionType.DEPOSIT =>
    if 0 < amount ∧ dailyTransactionCount < MAX_DAILY_TRANSACTIONS then
      (TransactionStatus.COMPLETED, amount)
    else (TransactionStatus.REJECTED, 0)
  | TransactionType.WITHDRAWAL =>
    if 0 < amount ∧ amount ≤ 50000 ∧ dailyTransactionCount < MAX_DAILY_TRANSACTIONS then
      (TransactionStatus.COMPLETED, amount)
    else if MAX_DAILY_TRANSACTIONS ≤ dailyTransactionCount then
      (TransactionStatus.REJECTED, 0)
    else (TransactionStatus.PENDING, 0)
  | TransactionType.REFUND =>
    if 0 < amount ∧ amount ≤ 10000 then (TransactionStatus.COMPLETED, 0)
    else if 10000 < amount then (TransactionStatus.PENDING, 0)
    else (TransactionStatus.PENDING, 0)

/-- `TransactionProcessor::processTransaction`.  `systemLocked` is the value of
`g_systemLocked` at call time; `compliance` is the compliance level the
attached compliance service reports for `sourceAccount` (`none` = no service
attached, so the check is skipped). -/
def processTransaction (s : TPState) (systemLocked : Bool)
    (compliance : Option ComplianceLevel) (type : TransactionType) (amount : ℚ)
    (sourceAccount destAccount : String) : TPState × TransactionStatus :=
  if ¬validateTransaction amount type then (s, TransactionStatus.REJECTED)
  else if compliance = some ComplianceLevel.BLOCKED then (s, TransactionStatus.REJECTED)
  else if compliance = some ComplianceLevel.HIGH_RISK ∧ 50000 < amount then
    (s, TransactionStatus.REJECTED)
  else
    let out :=
      dispatchTransaction type amount sourceAccount destAccount systemLocked
        s.dailyTransactionCount s.dailyVolume
    let status := out.1
    let volumeAdded := out.2
    if status ≠ TransactionStatus.REJECTED ∧ status ≠ TransactionStatus.CANCELLED then
      ({ s with
          transactionHistory := s.transactionHistory ++
            [{ id := s.transactionCounter + 1, type := type, amount := amount,
               sourceAccount := sourceAccount, destAccount := destAccount,
               status := status }],
          dailyVolume := s.dailyVolume + volumeAdded,
          dailyTransactionCount := s.dailyTransactionCount + 1,
          transactionCounter := s.transactionCounter + 1 }, status)
    else ({ s with dailyVolume := s.dailyVolume + volumeAdded }, status)

/-- `TransactionProcessor::resetDailyLimits`. -/
def resetDailyLimits (s : TPState) : TPState × Bool :=
  ({ s with dailyVolume := 0, dailyTransactionCount := 0 }, true)

/-- `TransactionProcessor::getDailyVolume`. -/
def getDailyVolume (s : TPState) : ℚ := s.dailyVolume

/-- `TransactionProcessor::getTransactionCount`. -/
def getTransactionCount (s : TPState) : ℕ := s.dailyTransactionCount

/-! ## Helper lemmas about the association-list store -/

theorem lookupAcct_updateAcct_self {l : List (ℕ × Account)} {id : ℕ} {a : Account}
    (b : Account) (h : lookupAcct l id = some a) :
    lookupAcct (updateAcct l id b) id = some b := by
  induction l with
  | nil => simp [lookupAcct] at h
  | cons hd tl ih =>
    obtain ⟨k, v⟩ := hd
    by_cases hk : k = id
    · simp [lookupAcct, updateAcct, hk]
    · simp only [lookupAcct, updateAcct, hk, if_false] at h ⊢
      exact ih h

theorem updateAcct_self {l : List (ℕ × Account)} {id : ℕ} {a : Account}
    (h : lookupAcct l id = some a) : updateAcct l id a = l := by
  induction l with
  | nil => simp [updateAcct]
  | cons hd tl ih =>
    obtain ⟨k, v⟩ := hd
    by_cases hk : k = id
    · simp only [lookupAcct, hk, if_true] at h
      injection h with h
      simp [updateAcct, hk, h]
    · simp only [lookupAcct, hk, if_false] at h
      simp [updateAcct, hk, ih h]

theorem MINIMUM_BALANCE_eq : MINIMUM_BALANCE = 0.01 := by
  norm_num [MINIMUM_BALANCE, mkRat]

theorem MIN_TRANSACTION_AMOUNT_eq : MIN_TRANSACTION_AMOUNT = 0.01 := by
  norm_num [MIN_TRANSACTION_AMOUNT, mkRat]

/-! ## C7: validateTransaction rejection condition -/

/-- **C7.** `validateTransaction(amount, type)` returns false exactly when
`amount < 0.01`, or `amount > 1,000,000`, or (WITHDRAWAL and
`amount > 50,000`), or (REFUND and `amount > 10,000`); in particular the
boundary values 0.01 (any type), 50,000 (WITHDRAWAL) and 10,000 (REFUND) are
accepted while 0.009, 50,000.01 and 10,000.01 are rejected. -/
theorem validateTransaction_rejection_condition :
    (∀ (amount : ℚ) (type : TransactionType),
      validateTransaction amount type = false ↔
        (amount < 0.01 ∨ 1000000 < amount ∨
          (type = TransactionType.WITHDRAWAL ∧ 50000 < amount) ∨
          (type = TransactionType.REFUND ∧ 10000 < amount))) ∧
    validateTransaction 0.01 TransactionType.DEPOSIT = true ∧
    validateTransaction 0.009 TransactionType.DEPOSIT = false ∧
    validateTransaction 50000 TransactionType.WITHDRAWAL = true ∧
    validateTransaction 50000.01 TransactionType.WITHDRAWAL = false ∧
    validateTransaction 10000 TransactionType.REFUND = true ∧
    validateTransaction 10000.01 TransactionType.REFUND = false := by
  refine ⟨fun amount type => ?_,
    by rw [(by norm_num [mkRat] : (0.01 : ℚ) = mkRat 1 100)]; decide,
    by rw [(by norm_num [mkRat] : (0.009 : ℚ) = mkRat 9 1000)]; decide,
    by decide,
    by rw [(by norm_num [mkRat] : (50000.01 : ℚ) = mkRat 5000001 100)]; decide,
    by decide,
    by rw [(by norm_num [mkRat] : (10000.01 : ℚ) = mkRat 1000001 100)]; decide⟩
  simp only [validateTransaction, MIN_TRANSACTION_AMOUNT_eq, MAX_TRANSACTION_AMOUNT]
  split_ifs with h1 h2 h3 h4
  · exact iff_of_true rfl (Or.inl h1)
  · exact iff_of_true rfl (Or.inr (Or.inl h2))
  · exact iff_of_true rfl (Or.inr (Or.inr (Or.inl h3)))
  · exact iff_of_true rfl (Or.inr (Or.inr (Or.inr h4)))
  · refine iff_of_false (by simp) ?_
    rintro (h | h | h | h)
    exacts [h1 h, h2 h, h3 h, h4 h]

/-! ## C5: executeTransfer five-step rule -/

/-- The five-step transfer decision rule, transcribed from the claim's words
(to be compared with `executeTransfer`, which is transcribed from the code). -/
def claimTransferRule (amount : ℚ) (source dest : String) (isUrgent systemLocked : Bool)
    (dailyCount : ℕ) (dailyVolume : ℚ) : TransactionStatus :=
  if source = "" ∨ dest = "" then TransactionStatus.REJECTED
  else if source = dest then
    if 0 < amount then TransactionStatus.REJECTED else TransactionStatus.CANCELLED
  else if isUrgent ∧ 100000 < amount ∧
      (MAX_DAILY_TRANSACTIONS ≤ dailyCount ∨ 5000000 < dailyVolume + amount) then
    TransactionStatus.REJECTED
  else if systemLocked then
    if isUrgent then TransactionStatus.APPROVED else TransactionStatus.PENDING
  else if 0 < amount ∧ dailyCount < MAX_DAILY_TRANSACTIONS ∧ dailyVolume + amount ≤ 5000000 then
    TransactionStatus.COMPLETED
  else if 0 < amount ∧ dailyCount < MAX_DAILY_TRANSACTIONS then TransactionStatus.APPROVED
  else if 0 < amount then TransactionStatus.PENDING
  else TransactionStatus.CANCELLED

set_option maxHeartbeats 1000000 in
/-- **C5.** For every amount, source, dest, urgency, lock-flag value and engine
state, `executeTransfer` returns exactly what the claim's five-step rule
prescribes. -/
theorem executeTransfer_five_step_rule (amount : ℚ) (source dest : String)
    (isUrgent systemLocked : Bool) (dailyCount : ℕ) (dailyVolume : ℚ) :
    executeTransfer amount source dest isUrgent systemLocked dailyCount dailyVolume =
      claimTransferRule amount source dest isUrgent systemLocked dailyCount dailyVolume := by
  unfold executeTransfer claimTransferRule
  split_ifs <;> first | rfl | tauto

/-! ## C9: withdrawals never come back PENDING -/

theorem validateTransaction_withdrawal_bounds {amount : ℚ}
    (h : validateTransaction amount TransactionType.WITHDRAWAL = true) :
    MIN_TRANSACTION_AMOUNT ≤ amount ∧ amount ≤ 50000 := by
  simp only [validateTransaction] at h
  split_ifs at h with h1 h2 h3 h4
  all_goals try simp at h
  push_neg at h1 h3
  refine ⟨h1, ?_⟩
  simpa using h3

/-- The returned status of `processTransaction` is the dispatch status (when
validation and compliance pass); the logging step forwards it unchanged. -/
theorem processTransaction_snd (s : TPState) (systemLocked : Bool)
    (compliance : Option ComplianceLevel) (type : TransactionType) (amount : ℚ)
    (source dest : String) :
    (processTransaction s systemLocked compliance type amount source dest).2 =
      if ¬validateTransaction amount type then TransactionStatus.REJECTED
      else if compliance = some ComplianceLevel.BLOCKED then TransactionStatus.REJECTED
      else if compliance = some ComplianceLevel.HIGH_RISK ∧ 50000 < amount then
        TransactionStatus.REJECTED
      else (dispatchTransaction type amount source dest systemLocked
        s.dailyTransactionCount s.dailyVolume).1 := by
  rcases hdp : dispatchTransaction type amount source dest systemLocked
    s.dailyTransactionCount s.dailyVolume with ⟨st, v⟩
  unfold processTransaction
  rw [hdp]
  dsimp only
  split_ifs <;> rfl

theorem dispatchTransaction_withdrawal_result (amount : ℚ) (src dst : String)
    (lk : Bool) (cnt : ℕ) (vol : ℚ) (hpos : 0 < amount) (hhi : amount ≤ 50000) :
    (dispatchTransaction TransactionType.WITHDRAWAL amount src dst lk cnt vol).1 =
        TransactionStatus.COMPLETED ∨
      (dispatchTransaction TransactionType.WITHDRAWAL amount src dst lk cnt vol).1 =
        TransactionStatus.REJECTED := by
  simp only [dispatchTransaction]
  by_cases hcap : cnt < MAX_DAILY_TRANSACTIONS
  · rw [if_pos ⟨hpos, hhi, hcap⟩]
    left
    rfl
  · rw [if_neg (fun hh => hcap hh.2.2), if_pos (le_of_not_lt hcap)]
    right
    rfl

/-- **C9.** `processTransaction(WITHDRAWAL, …)` never returns PENDING: for every
amount, accounts, lock flag, compliance level and engine state the result is
COMPLETED or REJECTED. -/
theorem withdrawal_never_pending (s : TPState) (systemLocked : Bool)
    (compliance : Option ComplianceLevel) (amount : ℚ) (source dest : String) :
    (processTransaction s systemLocked compliance TransactionType.WITHDRAWAL
        amount source dest).2 ≠ TransactionStatus.PENDING ∧
    ((processTransaction s systemLocked compliance TransactionType.WITHDRAWAL
        amount source dest).2 = TransactionStatus.COMPLETED ∨
      (processTransaction s systemLocked compliance TransactionType.WITHDRAWAL
        amount source dest).2 = TransactionStatus.REJECTED) := by
  by_cases hv : validateTransaction amount TransactionType.WITHDRAWAL = true
  case neg =>
    rw [processTransaction_snd, if_pos hv]
    exact ⟨by simp, Or.inr rfl⟩
  case pos =>
    rw [processTransaction_snd, if_neg (not_not_intro hv)]
    split_ifs with hb hh
    · exact ⟨by simp, Or.inr rfl⟩
    · exact ⟨by simp, Or.inr rfl⟩
    · obtain ⟨hlo, hhi⟩ := validateTransaction_withdrawal_bounds hv
      have hpos : 0 < amount := lt_of_lt_of_le (by decide) hlo
      rcases dispatchTransaction_withdrawal_result amount source dest systemLocked
          s.dailyTransactionCount s.dailyVolume hpos hhi with hres | hres
      · rw [hres]
        exact ⟨by simp, Or.inl rfl⟩
      · rw [hres]
        exact ⟨by simp, Or.inr rfl⟩

/-! ## Shared concrete fixtures (built through the operations themselves) -/

/-- The account created by `createAccount(CHECKING, 10.0)` on a fresh store. -/
def demoAccount : Account :=
  { accountNumber := 500001, type := AccountType.CHECKING,
    status := AccountStatus.PENDING_VERIFICATION, balance := 10, creditLimit := 0,
    riskScore := 0, isVerified := false, hasFraudAlert := false }

def demoStore : AMStore := (createAccount AMStore.initial AccountType.CHECKING 10).1

def suspStore : AMStore := (suspendAccount demoStore 500001 "fraud review").1

def suspAccount : Account := { demoAccount with status := AccountStatus.SUSPENDED }

/-! ## C1: evaluateAccountRisk decision table -/

/-- Frequency band as worded in the claim. -/
def claimFreqBand (transactionCount : ℤ) : ℤ :=
  if 100 < transactionCount then 30
  else if 50 < transactionCount then 15
  else if 20 < transactionCount then 5
  else 0

/-- Volume band as worded in the claim. -/
def claimVolBand (volumeLastDay : ℚ) : ℤ :=
  if 1000000 < volumeLastDay then 40
  else if 500000 < volumeLastDay then 20
  else if 100000 < volumeLastDay then 10
  else 0

/-- Flag band as worded in the claim. -/
def claimFlagBand (isVerified hasFraudAlert : Bool) : ℤ :=
  if ¬isVerified ∧ hasFraudAlert then 35
  else if ¬isVerified then 20
  else if hasFraudAlert then 25
  else 0

/-- The risk score as worded in the claim: sum of the three bands. -/
def claimRiskScore (transactionCount : ℤ) (volumeLastDay : ℚ)
    (isVerified hasFraudAlert : Bool) : ℤ :=
  claimFreqBand transactionCount + claimVolBand volumeLastDay +
    claimFlagBand isVerified hasFraudAlert

/-- **C1.** For every stored account, `evaluateAccountRisk` computes the
claim's risk score and then: score ≥ 75 with the compliance-audit flag set →
stores FROZEN and returns FROZEN (counter untouched); score ≥ 75 without the
flag → stores SUSPENDED, increments the suspended counter and returns
SUSPENDED; 50 < score < 75 → returns PENDING_VERIFICATION with the store
untouched; score ≤ 50 → returns ACTIVE with the store untouched. -/
theorem evaluateAccountRisk_matches_claim (s : AMStore) (id : ℕ)
    (transactionCount : ℤ) (volumeLastDay : ℚ) (auditMode : Bool) (a : Account)
    (h : lookupAcct s.accounts id = some a) :
    (75 ≤ claimRiskScore transactionCount volumeLastDay a.isVerified a.hasFraudAlert ∧
        auditMode = true →
      (evaluateAccountRisk s id transactionCount volumeLastDay auditMode).2 =
          AccountStatus.FROZEN ∧
        lookupAcct (evaluateAccountRisk s id transactionCount volumeLastDay
            auditMode).1.accounts id = some { a with status := AccountStatus.FROZEN } ∧
        (evaluateAccountRisk s id transactionCount volumeLastDay
            auditMode).1.suspendedAccountCount = s.suspendedAccountCount) ∧
    (75 ≤ claimRiskScore transactionCount volumeLastDay a.isVerified a.hasFraudAlert ∧
        auditMode = false →
      (evaluateAccountRisk s id transactionCount volumeLastDay auditMode).2 =
          AccountStatus.SUSPENDED ∧
        lookupAcct (evaluateAccountRisk s id transactionCount volumeLastDay
            auditMode).1.accounts id = some { a with status := AccountStatus.SUSPENDED } ∧
        (evaluateAccountRisk s id transactionCount volumeLastDay
            auditMode).1.suspendedAccountCount = s.suspendedAccountCount + 1) ∧
    (claimRiskScore transactionCount volumeLastDay a.isVerified a.hasFraudAlert < 75 ∧
        50 < claimRiskScore transactionCount volumeLastDay a.isVerified a.hasFraudAlert →
      evaluateAccountRisk s id transactionCount volumeLastDay auditMode =
        (s, AccountStatus.PENDING_VERIFICATION)) ∧
    (claimRiskScore transactionCount volumeLastDay a.isVerified a.hasFraudAlert ≤ 50 →
      evaluateAccountRisk s id transactionCount volumeLastDay auditMode =
        (s, AccountStatus.ACTIVE)) := by
  have hsc : freqBand transactionCount + volBand volumeLastDay +
      flagBand a.isVerified a.hasFraudAlert =
      claimRiskScore transactionCount volumeLastDay a.isVerified a.hasFraudAlert := rfl
  unfold evaluateAccountRisk HIGH_RISK_THRESHOLD
  rw [h]
  dsimp only
  rw [hsc]
  refine ⟨fun hb => ?_, fun hb => ?_, fun hb => ?_, fun hb => ?_⟩
  · rw [if_pos ⟨hb.1, by simp [hb.2]⟩]
    exact ⟨rfl, lookupAcct_updateAcct_self _ h, rfl⟩
  · rw [if_neg (fun hc => by rw [hb.2] at hc; simp at hc), if_pos hb.1]
    exact ⟨rfl, lookupAcct_updateAcct_self _ h, rfl⟩
  · rw [if_neg (fun hc => absurd hc.1 (not_le.mpr hb.1)),
      if_neg (not_le.mpr hb.1), if_pos hb.2]
  · rw [if_neg (fun hc => absurd hc.1 (not_le.mpr (lt_of_le_of_lt hb (by norm_num)))),
      if_neg (not_le.mpr (lt_of_le_of_lt hb (by norm_num))), if_neg (not_lt.mpr hb)]

/-- Witness for C1: the fresh unverified account with 101 transactions and a
1,000,001 volume scores 90 and is suspended (audit mode off). -/
theorem evaluateAccountRisk_matches_claim_witness :
    (evaluateAccountRisk demoStore 500001 101 1000001 false).2 =
        AccountStatus.SUSPENDED ∧
      (evaluateAccountRisk demoStore 500001 101 1000001 false).1.suspendedAccountCount =
        demoStore.suspendedAccountCount + 1 := by
  have h := evaluateAccountRisk_matches_claim demoStore 500001 101 1000001 false
    demoAccount (by decide)
  have h2 := h.2.1 ⟨by decide, rfl⟩
  exact ⟨h2.1, h2.2.2⟩

/-! ## C8: verifyAccount behaviour -/

/-- **C8.** `verifyAccount(id, result)` writes `isVerified := result`
unconditionally, succeeds exactly when `result` is true and the status at call
time was PENDING_VERIFICATION (setting the status to ACTIVE in that case, and
leaving it alone otherwise), and does nothing on an unknown id. -/
theorem verifyAccount_behaviour :
    (∀ (s : AMStore) (id : ℕ) (r : Bool) (a : Account),
      lookupAcct s.accounts id = some a →
        lookupAcct (verifyAccount s id r).1.accounts id =
          some { a with isVerified := r,
                        status := if r = true ∧
                            a.status = AccountStatus.PENDING_VERIFICATION then
                          AccountStatus.ACTIVE else a.status } ∧
        ((verifyAccount s id r).2 = true ↔
          (r = true ∧ a.status = AccountStatus.PENDING_VERIFICATION)) ∧
        (verifyAccount s id r).1.suspendedAccountCount = s.suspendedAccountCount) ∧
    (∀ (s : AMStore) (id : ℕ) (r : Bool),
      lookupAcct s.accounts id = none → verifyAccount s id r = (s, false)) := by
  constructor
  · intro s id r a h
    unfold verifyAccount
    rw [h]
    dsimp only
    by_cases hc : r = true ∧ a.status = AccountStatus.PENDING_VERIFICATION
    · rw [if_pos ⟨by simp [hc.1], hc.2⟩]
      refine ⟨?_, iff_of_true rfl hc, rfl⟩
      rw [if_pos hc]
      have := lookupAcct_updateAcct_self
        { a with isVerified := r, status := AccountStatus.ACTIVE } h
      rw [hc.1] at this ⊢
      exact this
    · rw [if_neg (fun hh => hc ⟨by simpa using hh.1, hh.2⟩)]
      refine ⟨?_, iff_of_false (by simp) hc, rfl⟩
      rw [if_neg hc]
      exact lookupAcct_updateAcct_self { a with isVerified := r } h
  · intro s id r h
    unfold verifyAccount
    rw [h]

/-- Witness for C8: verifying the fresh pending account with `true` succeeds
and activates it. -/
theorem verifyAccount_behaviour_witness :
    lookupAcct (verifyAccount demoStore 500001 true).1.accounts 500001 =
        some { demoAccount with isVerified := true, status := AccountStatus.ACTIVE } ∧
      (verifyAccount demoStore 500001 true).2 = true := by
  have h := verifyAccount_behaviour.1 demoStore 500001 true demoAccount (by decide)
  refine ⟨?_, h.2.1.mpr ⟨rfl, rfl⟩⟩
  have h1 := h.1
  rw [if_pos ⟨rfl, rfl⟩] at h1
  exact h1

/-! ## C10: activating a suspended account -/

/-- **C10.** A SUSPENDED account is activated unconditionally — whatever its
`isVerified` and `hasFraudAlert` flags — and the suspended counter is NOT
decremented. -/
theorem activateAccount_suspended_succeeds (s : AMStore) (id : ℕ) (a : Account)
    (h : lookupAcct s.accounts id = some a)
    (hst : a.status = AccountStatus.SUSPENDED) :
    (activateAccount s id).2 = true ∧
      lookupAcct (activateAccount s id).1.accounts id =
        some { a with status := AccountStatus.ACTIVE } ∧
      (activateAccount s id).1.suspendedAccountCount = s.suspendedAccountCount := by
  unfold activateAccount
  rw [h]
  dsimp only
  rw [if_neg (fun hh => by rw [hst] at hh; exact absurd hh.1 (by simp)),
    if_neg (fun hh => by rw [hst] at hh; rcases hh with hh | hh <;> simp at hh)]
  exact ⟨rfl, lookupAcct_updateAcct_self _ h, rfl⟩

/-- Witness for C10: activating the suspended demo account (unverified, after
`suspendAccount`) succeeds, reactivates it, and leaves the counter at 1. -/
theorem activateAccount_suspended_succeeds_witness :
    (activateAccount suspStore 500001).2 = true ∧
      lookupAcct (activateAccount suspStore 500001).1.accounts 500001 =
        some { suspAccount with status := AccountStatus.ACTIVE } ∧
      (activateAccount suspStore 500001).1.suspendedAccountCount =
        suspStore.suspendedAccountCount := by
  exact activateAccount_suspended_succeeds suspStore 500001 suspAccount (by decide) rfl

/-! ## C3: permanence of CLOSED -/

def closedStore : AMStore := (updateAccountStatus demoStore 500001 AccountStatus.CLOSED).1

def closedAccount : Account := { demoAccount with status := AccountStatus.CLOSED }

/-- Counterexample for C3: on a CLOSED (store-mediated) account,
`evaluateAccountRisk(id, 101, 1000001)` with audit mode off scores 90 and moves
the stored status to SUSPENDED — so risk evaluation does NOT preserve the
terminal state. -/
theorem closed_account_suspended_by_risk_evaluation :
    (lookupAcct closedStore.accounts 500001).map Account.status =
        some AccountStatus.CLOSED ∧
      (evaluateAccountRisk closedStore 500001 101 1000001 false).2 =
        AccountStatus.SUSPENDED ∧
      (lookupAcct (evaluateAccountRisk closedStore 500001 101 1000001
          false).1.accounts 500001).map Account.status =
        some AccountStatus.SUSPENDED := by decide

/-- **C3 (amended).** A stored CLOSED account is preserved by every operation
except `evaluateAccountRisk`: activate/suspend/deactivate fail without
mutation, `updateAccountStatus` fails for every target but CLOSED and is a
successful no-op for CLOSED, `verifyAccount` leaves the status CLOSED, and
`evaluateAccountRisk` leaves the store untouched whenever the computed risk
score is below 75 (with score ≥ 75 it mutates even a CLOSED account — the
counterexample above). -/
theorem closed_accounts_stay_closed (s : AMStore) (id : ℕ) (a : Account)
    (h : lookupAcct s.accounts id = some a)
    (hst : a.status = AccountStatus.CLOSED) :
    activateAccount s id = (s, false) ∧
      (∀ reason, suspendAccount s id reason = (s, false)) ∧
      deactivateAccount s id = (s, false) ∧
      (∀ st, st ≠ AccountStatus.CLOSED → updateAccountStatus s id st = (s, false)) ∧
      updateAccountStatus s id AccountStatus.CLOSED = (s, true) ∧
      (∀ r, (lookupAcct (verifyAccount s id r).1.accounts id).map Account.status =
        some AccountStatus.CLOSED) ∧
      (∀ (tc : ℤ) (vol : ℚ) (audit : Bool),
        freqBand tc + volBand vol + flagBand a.isVerified a.hasFraudAlert < 75 →
          (evaluateAccountRisk s id tc vol audit).1 = s) := by
  refine ⟨?_, ?_, ?_, ?_, ?_, ?_, ?_⟩
  · unfold activateAccount
    rw [h]
    dsimp only
    rw [if_neg (fun hh => by rw [hst] at hh; exact absurd hh.1 (by simp)),
      if_pos (Or.inl hst)]
  · intro reason
    unfold suspendAccount
    rw [h]
    dsimp only
    rw [if_pos hst]
  · unfold deactivateAccount
    rw [h]
    dsimp only
    rw [if_pos hst]
  · intro st hne
    have href : updateStatusRefused a st = true := by
      simp [updateStatusRefused, hst, hne]
    unfold updateAccountStatus
    rw [h]
    dsimp only
    rw [if_pos href]
  · have href : ¬(updateStatusRefused a AccountStatus.CLOSED = true) := by
      simp [updateStatusRefused, hst]
    have ha : { a with status := AccountStatus.CLOSED } = a := by rw [← hst]
    unfold updateAccountStatus
    rw [h]
    dsimp only
    rw [if_neg href, ha, updateAcct_self h]
    simp [hst]
  · intro r
    unfold verifyAccount
    rw [h]
    dsimp only
    rw [if_neg (fun hh => by rw [hst] at hh; exact absurd hh.2 (by simp))]
    dsimp only
    rw [lookupAcct_updateAcct_self { a with isVerified := r } h]
    simp [hst]
  · intro tc vol audit hlt
    unfold evaluateAccountRisk HIGH_RISK_THRESHOLD
    rw [h]
    dsimp only
    rw [if_neg (fun hc => absurd hc.1 (not_le.mpr hlt)), if_neg (not_le.mpr hlt)]
    split_ifs <;> rfl

/-- Witness for C3 (amended): the concrete CLOSED account is untouched by
`activateAccount` and by a low-score risk evaluation. -/
theorem closed_accounts_stay_closed_witness :
    activateAccount closedStore 500001 = (closedStore, false) ∧
      (evaluateAccountRisk closedStore 500001 0 0 false).1 = closedStore := by
  have h := closed_accounts_stay_closed closedStore 500001 closedAccount
    (by decide) rfl
  exact ⟨h.1, h.2.2.2.2.2.2 0 0 false (by decide)⟩

/-! ## C4: suspended-counter adjustment in updateAccountStatus -/

/-- Counterexample for C4: moving the suspended demo account (counter = 1) to
FROZEN succeeds but leaves the counter at 1 — the code does NOT decrement when
the account leaves SUSPENDED for a status other than ACTIVE, contrary to the
claim's "for any other status". -/
theorem suspended_to_frozen_keeps_counter :
    (updateAccountStatus suspStore 500001 AccountStatus.FROZEN).2 = true ∧
      suspStore.suspendedAccountCount = 1 ∧
      (updateAccountStatus suspStore 500001
          AccountStatus.FROZEN).1.suspendedAccountCount = 1 ∧
      (lookupAcct (updateAccountStatus suspStore 500001
          AccountStatus.FROZEN).1.accounts 500001).map Account.status =
        some AccountStatus.FROZEN := by decide

/-- **C4 (amended).** For every successful `updateAccountStatus(id, newStatus)`
the stored status is set to `newStatus` and the suspended counter is
incremented by exactly 1 when entering SUSPENDED from non-SUSPENDED,
decremented by exactly 1 only when leaving SUSPENDED for ACTIVE, and left
unchanged in every other case (in particular when leaving SUSPENDED for
FROZEN, CLOSED or PENDING_VERIFICATION). -/
theorem updateAccountStatus_counter_adjustment (s : AMStore) (id : ℕ)
    (newStatus : AccountStatus) (a : Account)
    (h : lookupAcct s.accounts id = some a)
    (hsucc : (updateAccountStatus s id newStatus).2 = true) :
    lookupAcct (updateAccountStatus s id newStatus).1.accounts id =
        some { a with status := newStatus } ∧
      (a.status ≠ AccountStatus.SUSPENDED ∧ newStatus = AccountStatus.SUSPENDED →
        (updateAccountStatus s id newStatus).1.suspendedAccountCount =
          s.suspendedAccountCount + 1) ∧
      (a.status = AccountStatus.SUSPENDED ∧ newStatus = AccountStatus.ACTIVE →
        (updateAccountStatus s id newStatus).1.suspendedAccountCount =
          s.suspendedAccountCount - 1) ∧
      (¬(a.status ≠ AccountStatus.SUSPENDED ∧ newStatus = AccountStatus.SUSPENDED) ∧
          ¬(a.status = AccountStatus.SUSPENDED ∧ newStatus = AccountStatus.ACTIVE) →
        (updateAccountStatus s id newStatus).1.suspendedAccountCount =
          s.suspendedAccountCount) := by
  unfold updateAccountStatus at hsucc ⊢
  rw [h] at hsucc ⊢
  dsimp only at hsucc ⊢
  by_cases href : updateStatusRefused a newStatus = true
  · rw [if_pos href] at hsucc
    simp at hsucc
  · rw [if_neg href] at hsucc ⊢
    refine ⟨lookupAcct_updateAcct_self _ h, fun hb => ?_, fun hb => ?_, fun hb => ?_⟩
    · dsimp only
      rw [if_neg (fun hc => hb.1 hc.1), if_pos hb]
    · dsimp only
      rw [if_pos hb]
      ring
    · dsimp only
      rw [if_neg hb.2, if_neg hb.1, add_zero]

/-- Witness for C4 (amended): reactivating the suspended demo account via
`updateAccountStatus(…, ACTIVE)` decrements the counter from 1 to 0. -/
theorem updateAccountStatus_counter_adjustment_witness :
    lookupAcct (updateAccountStatus suspStore 500001
        AccountStatus.ACTIVE).1.accounts 500001 =
        some { suspAccount with status := AccountStatus.ACTIVE } ∧
      (updateAccountStatus suspStore 500001
          AccountStatus.ACTIVE).1.suspendedAccountCount =
        suspStore.suspendedAccountCount - 1 := by
  have h := updateAccountStatus_counter_adjustment suspStore 500001
    AccountStatus.ACTIVE suspAccount (by decide) (by decide)
  exact ⟨h.1, h.2.2.1 ⟨rfl, rfl⟩⟩

/-! ## C2: the suspended counter versus the stored SUSPENDED accounts -/

/-- Number of stored accounts whose status is SUSPENDED. -/
def countSuspended (s : AMStore) : ℕ :=
  s.accounts.countP (fun p => decide (p.2.status = AccountStatus.SUSPENDED))

def doubleSuspStore : AMStore := (suspendAccount suspStore 500001 "repeat").1

/-- Counterexample for C2: after the store-mediated sequence `createAccount;
suspendAccount; suspendAccount` (the second suspension targets the already
SUSPENDED account), the counter reads 2 while exactly one stored account is
SUSPENDED. -/
theorem suspendedCount_mismatch_after_double_suspend :
    getSuspendedAccountCount doubleSuspStore = 2 ∧
      countSuspended doubleSuspStore = 1 := by decide

/-- One store-mediated operation (the globals are carried as per-call
arguments, and returned values are discarded). -/
inductive AMOp where
  | create (type : AccountType) (initialBalance : ℚ)
  | activate (id : ℕ)
  | suspend (id : ℕ) (reason : String)
  | deactivate (id : ℕ)
  | evalRisk (id : ℕ) (transactionCount : ℤ) (volumeLastDay : ℚ) (auditMode : Bool)
  | updateStatus (id : ℕ) (newStatus : AccountStatus)
  | verify (id : ℕ) (result : Bool)

def amStep (s : AMStore) : AMOp → AMStore
  | AMOp.create t b => (createAccount s t b).1
  | AMOp.activate id => (activateAccount s id).1
  | AMOp.suspend id r => (suspendAccount s id r).1
  | AMOp.deactivate id => (deactivateAccount s id).1
  | AMOp.evalRisk id tc vol audit => (evaluateAccountRisk s id tc vol audit).1
  | AMOp.updateStatus id st => (updateAccountStatus s id st).1
  | AMOp.verify id r => (verifyAccount s id r).1

def amRun (s : AMStore) : List AMOp → AMStore
  | [] => s
  | op :: ops => amRun (amStep s op) ops

/-- An operation is "safe" at a state when it does not target an account that
is currently SUSPENDED, except for `updateAccountStatus` moving it to ACTIVE
or (re-)SUSPENDED, and for `verifyAccount` (which never touches a SUSPENDED
status).  These are exactly the steps that keep the counter honest. -/
def safeStep (s : AMStore) : AMOp → Bool
  | AMOp.create _ _ => true
  | AMOp.activate id =>
    match lookupAcct s.accounts id with
    | some a => decide (a.status ≠ AccountStatus.SUSPENDED)
    | none => true
  | AMOp.suspend id _ =>
    match lookupAcct s.accounts id with
    | some a => decide (a.status ≠ AccountStatus.SUSPENDED)
    | none => true
  | AMOp.deactivate id =>
    match lookupAcct s.accounts id with
    | some a => decide (a.status ≠ AccountStatus.SUSPENDED)
    | none => true
  | AMOp.evalRisk id _ _ _ =>
    match lookupAcct s.accounts id with
    | some a => decide (a.status ≠ AccountStatus.SUSPENDED)
    | none => true
  | AMOp.updateStatus id st =>
    match lookupAcct s.accounts id with
    | some a => decide (a.status = AccountStatus.SUSPENDED →
        (st = AccountStatus.ACTIVE ∨ st = AccountStatus.SUSPENDED))
    | none => true
  | AMOp.verify _ _ => true

def SafeTrace : AMStore → List AMOp → Prop
  | _, [] => True
  | s, op :: ops => safeStep s op = true ∧ SafeTrace (amStep s op) ops

/-- The counter matches the store. -/
def CounterInv (s : AMStore) : Prop :=
  s.suspendedAccountCount = (countSuspended s : ℤ)

/-- In-place update changes the SUSPENDED count by the contribution of the new
record minus that of the replaced one. -/
theorem countP_updateAcct {l : List (ℕ × Account)} {id : ℕ} {a : Account}
    (b : Account) (h : lookupAcct l id = some a) :
    (updateAcct l id b).countP
        (fun p => decide (p.2.status = AccountStatus.SUSPENDED)) +
      (if a.status = AccountStatus.SUSPENDED then 1 else 0) =
    l.countP (fun p => decide (p.2.status = AccountStatus.SUSPENDED)) +
      (if b.status = AccountStatus.SUSPENDED then 1 else 0) := by
  induction l with
  | nil => simp [lookupAcct] at h
  | cons hd tl ih =>
    obtain ⟨k, v⟩ := hd
    by_cases hk : k = id
    · simp only [lookupAcct, hk, if_true] at h
      injection h with h
      rw [← h]
      simp only [updateAcct, hk, if_true, List.countP_cons]
      by_cases hpv : v.status = AccountStatus.SUSPENDED <;>
        by_cases hpb : b.status = AccountStatus.SUSPENDED <;>
        simp [hpv, hpb]
    · simp only [lookupAcct, hk, if_false] at h
      have ihh := ih h
      simp only [updateAcct, hk, if_false, List.countP_cons]
      by_cases hpv : v.status = AccountStatus.SUSPENDED <;>
        simp [hpv] at ihh ⊢ <;> omega

/-- A safe step keeps the counter equal to the number of SUSPENDED accounts. -/
theorem amStep_preserves_CounterInv {s : AMStore} {op : AMOp}
    (hinv : CounterInv s) (hsafe : safeStep s op = true) :
    CounterInv (amStep s op) := by
  cases op with
  | create t b =>
    simp only [amStep]
    unfold createAccount
    split_ifs
    · exact hinv
    · exact hinv
    · unfold CounterInv countSuspended at hinv ⊢
      dsimp only
      rw [List.countP_append]
      simp [hinv]
  | activate id =>
    simp only [amStep]
    unfold activateAccount
    simp only [safeStep] at hsafe
    cases hl : lookupAcct s.accounts id with
    | none => exact hinv
    | some a =>
      rw [hl] at hsafe
      replace hsafe : a.status ≠ AccountStatus.SUSPENDED := of_decide_eq_true hsafe
      dsimp only
      split_ifs
      · exact hinv
      · exact hinv
      · have hcnt := countP_updateAcct { a with status := AccountStatus.ACTIVE } hl
        rw [if_neg hsafe, if_neg (by simp)] at hcnt
        unfold CounterInv countSuspended at hinv ⊢
        dsimp only
        omega
  | suspend id reason =>
    simp only [amStep]
    unfold suspendAccount
    simp only [safeStep] at hsafe
    cases hl : lookupAcct s.accounts id with
    | none => exact hinv
    | some a =>
      rw [hl] at hsafe
      replace hsafe : a.status ≠ AccountStatus.SUSPENDED := of_decide_eq_true hsafe
      dsimp only
      split_ifs
      · exact hinv
      · have hcnt := countP_updateAcct { a with status := AccountStatus.SUSPENDED } hl
        rw [if_neg hsafe, if_pos rfl] at hcnt
        unfold CounterInv countSuspended at hinv ⊢
        dsimp only
        omega
  | deactivate id =>
    simp only [amStep]
    unfold deactivateAccount
    simp only [safeStep] at hsafe
    cases hl : lookupAcct s.accounts id with
    | none => exact hinv
    | some a =>
      rw [hl] at hsafe
      replace hsafe : a.status ≠ AccountStatus.SUSPENDED := of_decide_eq_true hsafe
      dsimp only
      split_ifs
      · exact hinv
      · exact hinv
      · have hcnt := countP_updateAcct { a with status := AccountStatus.CLOSED } hl
        rw [if_neg hsafe, if_neg (by simp)] at hcnt
        unfold CounterInv countSuspended at hinv ⊢
        dsimp only
        omega
  | evalRisk id tc vol audit =>
    simp only [amStep]
    unfold evaluateAccountRisk
    simp only [safeStep] at hsafe
    cases hl : lookupAcct s.accounts id with
    | none => exact hinv
    | some a =>
      rw [hl] at hsafe
      replace hsafe : a.status ≠ AccountStatus.SUSPENDED := of_decide_eq_true hsafe
      dsimp only
      split_ifs
      · have hcnt := countP_updateAcct { a with status := AccountStatus.FROZEN } hl
        rw [if_neg hsafe, if_neg (by simp)] at hcnt
        unfold CounterInv countSuspended at hinv ⊢
        dsimp only
        omega
      · have hcnt := countP_updateAcct { a with status := AccountStatus.SUSPENDED } hl
        rw [if_neg hsafe, if_pos rfl] at hcnt
        unfold CounterInv countSuspended at hinv ⊢
        dsimp only
        omega
      · exact hinv
      · exact hinv
  | updateStatus id st =>
    simp only [amStep]
    unfold updateAccountStatus
    simp only [safeStep] at hsafe
    cases hl : lookupAcct s.accounts id with
    | none => exact hinv
    | some a =>
      rw [hl] at hsafe
      replace hsafe : a.status = AccountStatus.SUSPENDED →
          st = AccountStatus.ACTIVE ∨ st = AccountStatus.SUSPENDED :=
        of_decide_eq_true hsafe
      dsimp only
      split_ifs with href h1 h2
      · exact hinv
      · obtain ⟨ha, hst⟩ := h1
        subst hst
        have hcnt := countP_updateAcct { a with status := AccountStatus.ACTIVE } hl
        rw [if_pos ha, if_neg (by simp)] at hcnt
        unfold CounterInv countSuspended at hinv ⊢
        dsimp only
        omega
      · obtain ⟨ha, hst⟩ := h2
        subst hst
        have hcnt := countP_updateAcct { a with status := AccountStatus.SUSPENDED } hl
        rw [if_neg ha, if_pos rfl] at hcnt
        unfold CounterInv countSuspended at hinv ⊢
        dsimp only
        omega
      · have hcnt := countP_updateAcct { a with status := st } hl
        unfold CounterInv countSuspended at hinv ⊢
        dsimp only
        by_cases ha : a.status = AccountStatus.SUSPENDED
        · rcases hsafe ha with hst | hst
          · exact absurd ⟨ha, hst⟩ h1
          · subst hst
            rw [if_pos ha, if_pos rfl] at hcnt
            omega
        · have hst : st ≠ AccountStatus.SUSPENDED := fun hh => h2 ⟨ha, hh⟩
          rw [if_neg ha, if_neg hst] at hcnt
          omega
  | verify id r =>
    simp only [amStep]
    unfold verifyAccount
    cases hl : lookupAcct s.accounts id with
    | none => exact hinv
    | some a =>
      dsimp only
      split_ifs with hc
      · have hcnt := countP_updateAcct
          { a with isVerified := r, status := AccountStatus.ACTIVE } hl
        rw [if_neg (by rw [hc.2]; simp), if_neg (by simp)] at hcnt
        unfold CounterInv countSuspended at hinv ⊢
        dsimp only
        omega
      · have hcnt := countP_updateAcct { a with isVerified := r } hl
        unfold CounterInv countSuspended at hinv ⊢
        dsimp only
        by_cases hps : a.status = AccountStatus.SUSPENDED
        · rw [if_pos hps] at hcnt
          omega
        · rw [if_neg hps] at hcnt
          omega

theorem amRun_CounterInv (ops : List AMOp) :
    ∀ s : AMStore, CounterInv s → SafeTrace s ops → CounterInv (amRun s ops) := by
  induction ops with
  | nil => exact fun s hinv _ => hinv
  | cons op ops ih =>
    intro s hinv hsafe
    exact ih (amStep s op) (amStep_preserves_CounterInv hinv hsafe.1) hsafe.2

/-- **C2 (amended).** Starting from a fresh store, after every sequence of
store-mediated operations in which no operation targets an account that is
currently SUSPENDED — except `updateAccountStatus` with new status ACTIVE or
SUSPENDED, and `verifyAccount` — `getSuspendedAccountCount()` equals the
number of stored SUSPENDED accounts.  (Unrestricted sequences break the
equality: see the double-suspend counterexample.) -/
theorem suspendedCount_matches_store_on_safe_traces (ops : List AMOp)
    (hsafe : SafeTrace AMStore.initial ops) :
    getSuspendedAccountCount (amRun AMStore.initial ops) =
      (countSuspended (amRun AMStore.initial ops) : ℤ) :=
  amRun_CounterInv ops AMStore.initial (by simp [CounterInv, countSuspended, AMStore.initial]) hsafe

/-- A safe demonstration trace: create, suspend, reactivate. -/
def safeOpsDemo : List AMOp :=
  [AMOp.create AccountType.CHECKING 10, AMOp.suspend 500001 "review",
   AMOp.updateStatus 500001 AccountStatus.ACTIVE]

/-- Witness for C2 (amended): the demonstration trace is safe and ends with
counter = number of SUSPENDED accounts (= 0). -/
theorem suspendedCount_matches_store_on_safe_traces_witness :
    SafeTrace AMStore.initial safeOpsDemo ∧
      getSuspendedAccountCount (amRun AMStore.initial safeOpsDemo) =
        (countSuspended (amRun AMStore.initial safeOpsDemo) : ℤ) := by
  have hsafe : SafeTrace AMStore.initial safeOpsDemo :=
    ⟨by decide, by decide, by decide, trivial⟩
  exact ⟨hsafe, suspendedCount_matches_store_on_safe_traces safeOpsDemo hsafe⟩

/-! ## C6: daily counters versus the journal -/

/-- Sum of the amounts of the DEPOSIT and WITHDRAWAL entries of a journal. -/
def sumDW : List Transaction → ℚ
  | [] => 0
  | tx :: rest =>
    (if tx.type = TransactionType.DEPOSIT ∨ tx.type = TransactionType.WITHDRAWAL then
      tx.amount else 0) + sumDW rest

theorem sumDW_append (l1 l2 : List Transaction) :
    sumDW (l1 ++ l2) = sumDW l1 + sumDW l2 := by
  induction l1 with
  | nil => simp [sumDW]
  | cons tx rest ih => simp [sumDW, ih]; ring

/-- One engine call: a `processTransaction` (with the lock flag and the
compliance answer it observes) or a `resetDailyLimits`. -/
inductive TPOp where
  | process (systemLocked : Bool) (compliance : Option ComplianceLevel)
      (type : TransactionType) (amount : ℚ) (source dest : String)
  | reset

/-- Engine state plus the two bookkeeping quantities the claim speaks about:
the journal length at the last reset, and the number of accepted
(non-REJECTED/CANCELLED) `processTransaction` calls since the last reset. -/
structure TPRun where
  state : TPState
  mark : ℕ
  accepted : ℕ

def tpStep (t : TPRun) : TPOp → TPRun
  | TPOp.process lk comp ty amt src dst =>
    let out := processTransaction t.state lk comp ty amt src dst
    { state := out.1, mark := t.mark,
      accepted := t.accepted +
        (if out.2 ≠ TransactionStatus.REJECTED ∧ out.2 ≠ TransactionStatus.CANCELLED
          then 1 else 0) }
  | TPOp.reset =>
    { state := (resetDailyLimits t.state).1,
      mark := t.state.transactionHistory.length, accepted := 0 }

def tpRun (ops : List TPOp) : TPRun :=
  ops.foldl tpStep { state := TPState.initial, mark := 0, accepted := 0 }

/-- The journal/counters invariant of the claim. -/
def JournalInv (t : TPRun) : Prop :=
  t.mark ≤ t.state.transactionHistory.length ∧
  t.state.dailyTransactionCount = t.state.transactionHistory.length - t.mark ∧
  t.state.dailyTransactionCount = t.accepted ∧
  t.state.dailyVolume = sumDW (t.state.transactionHistory.drop t.mark)

/-- When the dispatched status is accepted, the volume added is the amount for
DEPOSIT/WITHDRAWAL and zero otherwise (the withdrawal PENDING branch, which
would break this, is unreachable once validation has passed). -/
theorem dispatchTransaction_volumeAdded {ty : TransactionType} {amt : ℚ}
    {src dst : String} {lk : Bool} {cnt : ℕ} {vol : ℚ}
    {st0 : TransactionStatus} {va : ℚ}
    (hd : dispatchTransaction ty amt src dst lk cnt vol = (st0, va))
    (hv : validateTransaction amt ty = true)
    (hnr : st0 ≠ TransactionStatus.REJECTED) :
    va = if ty = TransactionType.DEPOSIT ∨ ty = TransactionType.WITHDRAWAL then
      amt else 0 := by
  cases ty with
  | TRANSFER =>
    simp only [dispatchTransaction] at hd
    injection hd with hst hva
    simp [← hva]
  | DEPOSIT =>
    simp only [dispatchTransaction] at hd
    split_ifs at hd with hA
    · injection hd with hst hva
      simp [← hva]
    · injection hd with hst hva
      exact absurd hst.symm hnr
  | WITHDRAWAL =>
    simp only [dispatchTransaction] at hd
    split_ifs at hd with hA hB
    · injection hd with hst hva
      simp [← hva]
    · injection hd with hst hva
      exact absurd hst.symm hnr
    · obtain ⟨hlo, hhi⟩ := validateTransaction_withdrawal_bounds hv
      have hpos : 0 < amt := lt_of_lt_of_le (by decide) hlo
      exact absurd ⟨hpos, hhi, lt_of_not_le hB⟩ hA
  | REFUND =>
    simp only [dispatchTransaction] at hd
    split_ifs at hd <;> injection hd with hst hva <;> simp [← hva]

/-- When the dispatched status is REJECTED or CANCELLED, no volume is added. -/
theorem dispatchTransaction_not_accepted_volume {ty : TransactionType} {amt : ℚ}
    {src dst : String} {lk : Bool} {cnt : ℕ} {vol : ℚ}
    {st0 : TransactionStatus} {va : ℚ}
    (hd : dispatchTransaction ty amt src dst lk cnt vol = (st0, va))
    (h : ¬(st0 ≠ TransactionStatus.REJECTED ∧ st0 ≠ TransactionStatus.CANCELLED)) :
    va = 0 := by
  cases ty <;> simp only [dispatchTransaction] at hd <;>
    (try split_ifs at hd) <;> injection hd with hst hva <;> subst hst <;>
    first
      | exact hva.symm
      | exact absurd (by simp) h

theorem tpStep_preserves_JournalInv {t : TPRun} {op : TPOp}
    (hinv : JournalInv t) : JournalInv (tpStep t op) := by
  obtain ⟨hm, hc, ha, hv⟩ := hinv
  cases op with
  | reset =>
    simp only [tpStep]
    refine ⟨le_refl _, Nat.sub_self _ |>.symm ▸ rfl, rfl, ?_⟩
    show (0 : ℚ) = sumDW (t.state.transactionHistory.drop t.state.transactionHistory.length)
    rw [List.drop_length]
    rfl
  | process lk comp ty amt src dst =>
    simp only [tpStep]
    rcases hpt : processTransaction t.state lk comp ty amt src dst with ⟨s2, st⟩
    dsimp only
    unfold processTransaction at hpt
    split_ifs at hpt with h1 h2 h3
    · injection hpt with hs2 hst
      subst hs2
      subst hst
      exact ⟨hm, hc, by simpa using ha, hv⟩
    · injection hpt with hs2 hst
      subst hs2
      subst hst
      exact ⟨hm, hc, by simpa using ha, hv⟩
    · rcases hd : dispatchTransaction ty amt src dst lk t.state.dailyTransactionCount
        t.state.dailyVolume with ⟨st0, va⟩
      rw [hd] at hpt
      dsimp only at hpt
      split_ifs at hpt with hacc
      · injection hpt with hs2 hst
        subst hs2
        subst hst
        have hva := dispatchTransaction_volumeAdded hd h1 hacc.1
        refine ⟨?_, ?_, ?_, ?_⟩
        · dsimp only
          simp only [List.length_append, List.length_singleton]
          omega
        · dsimp only
          simp only [List.length_append, List.length_singleton]
          omega
        · dsimp only
          rw [if_pos hacc]
          omega
        · dsimp only
          rw [List.drop_append_of_le_length hm, sumDW_append, hv, hva]
          dsimp [sumDW]
          ring
      · injection hpt with hs2 hst
        subst hs2
        subst hst
        have hva := dispatchTransaction_not_accepted_volume hd hacc
        subst hva
        refine ⟨hm, hc, ?_, ?_⟩
        · dsimp only
          rw [if_neg hacc]
          omega
        · dsimp only
          rw [hv]
          ring
    · injection hpt with hs2 hst
      subst hs2
      subst hst
      exact ⟨hm, hc, by simpa using ha, hv⟩

theorem tpRun_JournalInv (ops : List TPOp) :
    ∀ t : TPRun, JournalInv t → JournalInv (ops.foldl tpStep t) := by
  induction ops with
  | nil => exact fun t hinv => hinv
  | cons op ops ih => exact fun t hinv => ih (tpStep t op) (tpStep_preserves_JournalInv hinv)

/-- **C6.** After any sequence of `processTransaction` / `resetDailyLimits`
calls, `getTransactionCount()` equals the number of journal entries appended
since the last reset (equivalently, the number of calls since the last reset
whose status was neither REJECTED nor CANCELLED) and `getDailyVolume()` equals
the sum of the amounts of the DEPOSIT and WITHDRAWAL entries appended since
the last reset; `resetDailyLimits` always returns true, zeroes both counters
and removes no journal entries. -/
theorem daily_counters_match_journal :
    (∀ ops : List TPOp,
      getTransactionCount (tpRun ops).state =
          (tpRun ops).state.transactionHistory.length - (tpRun ops).mark ∧
        (tpRun ops).mark ≤ (tpRun ops).state.transactionHistory.length ∧
        getTransactionCount (tpRun ops).state = (tpRun ops).accepted ∧
        getDailyVolume (tpRun ops).state =
          sumDW ((tpRun ops).state.transactionHistory.drop (tpRun ops).mark)) ∧
    (∀ s : TPState,
      (resetDailyLimits s).2 = true ∧
        getDailyVolume (resetDailyLimits s).1 = 0 ∧
        getTransactionCount (resetDailyLimits s).1 = 0 ∧
        (resetDailyLimits s).1.transactionHistory = s.transactionHistory) := by
  constructor
  · intro ops
    have h := tpRun_JournalInv ops { state := TPState.initial, mark := 0, accepted := 0 }
      ⟨by simp, rfl, rfl, rfl⟩
    exact ⟨h.2.1, h.1, h.2.2.1, h.2.2.2⟩
  · exact fun s => ⟨rfl, rfl, rfl, rfl⟩
